import Mathlib

/-!
Formal model of the HLK-LD2450 presence sensor driver
(`xsns_124_ld2450.ino`): configuration load/save and validation, the
serial frame assembler with its 4-byte sliding window, target decoding
with the sensor's sign-magnitude correction, zone classification, the
active-target counter and the presence timeout query.

Machine integers are modelled as `Nat`/`Int` with explicit reductions
modulo 2^8, 2^16 and 2^32 exactly where the C code performs (or relies
on) a conversion.
-/

namespace LD2450

/-- Sensor startup delay in seconds (`LD2450_START_DELAY`). -/
def LD2450_START_DELAY : Nat := 10

/-- Default presence detection timeout in seconds (`LD2450_DEFAULT_TIMEOUT`). -/
def LD2450_DEFAULT_TIMEOUT : Nat := 5

/-- Maximum detection distance in millimeters (`LD2450_DIST_MAX`). -/
def LD2450_DIST_MAX : Int := 6000

/-- Number of target slots (`LD2450_TARGET_MAX`). -/
def LD2450_TARGET_MAX : Nat := 3

/-- Capacity of the message body buffer (`LD2450_MSG_SIZE_MAX`). -/
def LD2450_MSG_SIZE_MAX : Nat := 32

/-- Value of a 16-bit little-endian word reinterpreted as a signed
`int16_t`, as done by the driver when it reads `*(int16_t*)` out of the
message body. -/
def toInt16 (n : Nat) : Int :=
  if n % 65536 < 32768 then ((n % 65536 : Nat) : Int)
  else ((n % 65536 : Nat) : Int) - 65536

/-- Sign-magnitude correction applied by `LD2450ReceiveData` to each decoded
field: `if (v < 0) v = 0 - v - 32768;`.  (For `int16_t` inputs the C
computation happens after integer promotion and its result is always in
`int16_t` range, so no wraparound is involved.) -/
def fixSign (v : Int) : Int := if v < 0 then 0 - v - 32768 else v

/-- Conversion of a C `int` value to `uint8_t` (reduction modulo 256). -/
def u8ofInt (v : Int) : Nat := (v % 256).toNat

/-- Conversion of a C `int` value to `int16_t` (two's-complement
wraparound). -/
def wrap16 (v : Int) : Int := (v + 32768) % 65536 - 32768

/-- Fuel-driven linear search for the integer square root: largest `k`
reachable from the accumulator with `k * k ≤ n`. -/
def isqrtAux (n : Nat) : Nat → Nat → Nat
  | 0, k => k
  | fuel + 1, k => if (k + 1) * (k + 1) ≤ n then isqrtAux n fuel (k + 1) else k

/-- Kernel-computable integer square root, used to model the driver's
`(uint16_t)sqrt(pow(x,2)+pow(y,2))`: for `|x|,|y| ≤ 32767` the sum of
squares is an exact double, IEEE `sqrt` is correctly rounded and its
truncation equals the integer square root (shown below to coincide with
`Nat.sqrt`). -/
def isqrt (n : Nat) : Nat := isqrtAux n n 0

/-- In-memory configuration `ld2450_config`: detection timeout (`uint8_t`,
seconds) and detection zone corners x1, x2, y1, y2 (`int16_t`,
millimeters). -/
structure Config where
  timeout : Nat
  x1 : Int
  x2 : Int
  y1 : Int
  y2 : Int
  deriving DecidableEq

/-- Default configuration values from the `ld2450_config` initializers. -/
def defaultConfig : Config := ⟨5, -6000, 6000, 0, 6000⟩

/-- The five persisted configuration bytes `Settings->free_ea6[25..29]`. -/
structure Settings where
  e25 : Nat
  e26 : Nat
  e27 : Nat
  e28 : Nat
  e29 : Nat
  deriving DecidableEq

/-- Embedding of `LD2450LoadConfig`: decode the five persisted bytes
(`(byte - 128) * 100` for the corners) and validate the result, clamping
or resetting out-of-range values in the order of the source checks. -/
def LD2450LoadConfig (st : Settings) : Config :=
  let timeout : Nat := st.e25
  let x1 : Int := ((st.e26 : Int) - 128) * 100
  let x2 : Int := ((st.e27 : Int) - 128) * 100
  let y1 : Int := ((st.e28 : Int) - 128) * 100
  let y2 : Int := ((st.e29 : Int) - 128) * 100
  let timeout := if timeout = 0 then LD2450_DEFAULT_TIMEOUT else timeout
  let x1 := if x1 < -LD2450_DIST_MAX then -LD2450_DIST_MAX else x1
  let x2 := if x2 > LD2450_DIST_MAX then LD2450_DIST_MAX else x2
  let y1 := if y1 < 0 then 0 else y1
  let y2 := if y2 > LD2450_DIST_MAX then LD2450_DIST_MAX else y2
  let x2 := if x2 ≤ x1 then LD2450_DIST_MAX else x2
  let y2 := if y2 ≤ y1 then LD2450_DIST_MAX else y2
  ⟨timeout, x1, x2, y1, y2⟩

/-- Embedding of `LD2450SaveConfig`: encode the configuration into the five
persisted bytes, `byte = (uint8_t)((value / 100) + 128)` with C truncating
division. -/
def LD2450SaveConfig (cfg : Config) : Settings :=
  ⟨cfg.timeout,
   u8ofInt (Int.tdiv cfg.x1 100 + 128),
   u8ofInt (Int.tdiv cfg.x2 100 + 128),
   u8ofInt (Int.tdiv cfg.y1 100 + 128),
   u8ofInt (Int.tdiv cfg.y2 100 + 128)⟩

/-- Embedding of `CmndLD2450Timeout`: if the mailbox payload is positive,
store it in the configuration (truncated to `uint8_t`) and save; the
settings are otherwise left untouched.  The source performs no reload. -/
def CmndLD2450Timeout (payload : Int) (cfg : Config) (st : Settings) :
    Config × Settings :=
  if 0 < payload then
    let cfg' := { cfg with timeout := u8ofInt payload }
    (cfg', LD2450SaveConfig cfg')
  else (cfg, st)

/-- Embedding of `CmndLD2450Reset`: restore the default zone and save.
The source performs no reload. -/
def CmndLD2450Reset (cfg : Config) : Config × Settings :=
  let cfg' := { cfg with x1 := -LD2450_DIST_MAX, x2 := LD2450_DIST_MAX,
                         y1 := 0, y2 := LD2450_DIST_MAX }
  (cfg', LD2450SaveConfig cfg')

/-- Assignment loop of `CmndLD2450Dist`: token 0 sets y1, token 1 sets y2
(`atoi` results truncated to `int16_t`); further tokens are ignored. -/
def applyDistVals (cfg : Config) (vals : List Int) : Config :=
  match vals with
  | [] => cfg
  | v0 :: rest =>
    let cfg := { cfg with y1 := wrap16 v0 }
    match rest with
    | [] => cfg
    | v1 :: _ => { cfg with y2 := wrap16 v1 }

/-- Embedding of `CmndLD2450Dist` for a non-empty command payload parsed
into the token list `vals`: set y1, y2 from the tokens, force x1, x2 to
the full range, save, then reload and re-validate. -/
def CmndLD2450Dist (vals : List Int) (cfg : Config) : Config × Settings :=
  let cfg := applyDistVals cfg vals
  let cfg := { cfg with x1 := -LD2450_DIST_MAX, x2 := LD2450_DIST_MAX }
  let st := LD2450SaveConfig cfg
  (LD2450LoadConfig st, st)

/-- Assignment loop of `CmndLD2450Zone`: tokens 0..3 set x1, x2, y1, y2
(`atoi` results truncated to `int16_t`); further tokens are ignored. -/
def applyZoneVals (cfg : Config) (vals : List Int) : Config :=
  match vals with
  | [] => cfg
  | v0 :: r0 =>
    let cfg := { cfg with x1 := wrap16 v0 }
    match r0 with
    | [] => cfg
    | v1 :: r1 =>
      let cfg := { cfg with x2 := wrap16 v1 }
      match r1 with
      | [] => cfg
      | v2 :: r2 =>
        let cfg := { cfg with y1 := wrap16 v2 }
        match r2 with
        | [] => cfg
        | v3 :: _ => { cfg with y2 := wrap16 v3 }

/-- Embedding of `CmndLD2450Zone` for a non-empty command payload parsed
into the token list `vals`: set the corners from the tokens, save, then
reload and re-validate. -/
def CmndLD2450Zone (vals : List Int) (cfg : Config) : Config × Settings :=
  let cfg := applyZoneVals cfg vals
  let st := LD2450SaveConfig cfg
  (LD2450LoadConfig st, st)

/-- Embedding of `LD2450GetDetectionStatus`: `tstamp` is
`ld2450_status.timestamp`, `now` is `LocalTime ()` and `delay` the
requested timeout, all `uint32_t` quantities, so the sum
`timestamp + timeout` wraps modulo 2^32. -/
def LD2450GetDetectionStatus (cfg : Config) (tstamp now delay : Nat) : Bool :=
  if tstamp = 0 then false
  else
    let timeout := if delay = 0 ∨ delay = 4294967295 then cfg.timeout else delay
    decide ((tstamp + timeout) % 4294967296 > now)

/-- One decoded target record (`ld2450_target[i]`). -/
structure Target where
  x : Int
  y : Int
  speed : Int
  dist : Nat
  zone : Bool
  deriving DecidableEq

/-- Sliding window of the last 4 received bytes
(`ld2450_received.arr_last`), in arrival order. -/
structure Window where
  b0 : Nat
  b1 : Nat
  b2 : Nat
  b3 : Nat
  deriving DecidableEq

/-- Header test `*(uint32_t*)&ld2450_received.arr_last == 0x0003ffaa`
(little-endian), i.e. the window holds `AA FF 03 00` in transmission
order. -/
def headerMatch (w : Window) : Bool :=
  decide (w.b0 + 256 * w.b1 + 65536 * w.b2 + 16777216 * w.b3 = 0x0003ffaa)

/-- Footer test `*(uint16_t*)(ld2450_received.arr_last + 2) == 0xcc55`
(little-endian), i.e. the last two received bytes are `55 CC`. -/
def footerMatch (w : Window) : Bool :=
  decide (w.b2 + 256 * w.b3 = 0xcc55)

/-- Reception state `ld2450_received`: millis timestamp of the last
received character, current body length `idx_body`, the 32-byte body
buffer, and the 4-byte sliding window. -/
structure RxState where
  timestamp : Nat
  idx_body : Nat
  arr_body : List Nat
  arr_last : Window
  deriving DecidableEq

/-- Combined mutable driver state: reception state, the 3 target records,
the active-target counter `ld2450_status.counter` and the last-detection
timestamp `ld2450_status.timestamp`. -/
structure SensorState where
  rx : RxState
  targets : List Target
  counter : Nat
  timestamp : Nat
  deriving DecidableEq

/-- Append a received byte to the message body if capacity allows
(`if (idx_body < LD2450_MSG_SIZE_MAX) arr_body[idx_body++] = recv_data`);
a byte arriving on a full buffer is dropped, and the write index is
always strictly below the 32-byte capacity. -/
def appendBody (rx : RxState) (data : Nat) : RxState :=
  if rx.idx_body < LD2450_MSG_SIZE_MAX then
    { rx with arr_body := rx.arr_body.set rx.idx_body data,
              idx_body := rx.idx_body + 1 }
  else rx

/-- Shift the 4-byte window, dropping the oldest byte. -/
def shiftWindow (w : Window) (data : Nat) : Window := ⟨w.b1, w.b2, w.b3, data⟩

/-- Embedding of the per-target decode in `LD2450ReceiveData`: read x, y
and speed as little-endian `int16_t` at offsets 0, 2, 4 of the 8-byte
record starting at `4 + i*8`, apply the sign-magnitude correction to
each, negate y, then derive the distance and the zone flag from the
corrected values and the current configuration. -/
def decodeTarget (cfg : Config) (body : List Nat) (i : Nat) : Target :=
  let start := 4 + i * 8
  let x := fixSign (toInt16 (body.getD start 0 + 256 * body.getD (start + 1) 0))
  let y0 := fixSign (toInt16 (body.getD (start + 2) 0 + 256 * body.getD (start + 3) 0))
  let y := 0 - y0
  let speed := fixSign (toInt16 (body.getD (start + 4) 0 + 256 * body.getD (start + 5) 0))
  let dist := isqrt (x * x + y * y).toNat
  let zone := decide (dist > 0) && (decide (x ≥ cfg.x1) && decide (x ≤ cfg.x2))
      && (decide (y ≥ cfg.y1) && decide (y ≤ cfg.y2))
  ⟨x, y, speed, dist, zone⟩

/-- The three target records decoded from a complete message body. -/
def decodeTargets (cfg : Config) (body : List Nat) : List Target :=
  (List.range LD2450_TARGET_MAX).map (decodeTarget cfg body)

/-- Body of `LD2450ReceiveData` for one received byte once the startup
delay has elapsed: append to the message body, shift the window, record
the reception time, then check for the header (resynchronization: the
body is reset to the 4 header bytes) and otherwise for a complete frame
(body length 30 and footer in the window: decode the targets, count the
active ones, update the detection timestamp if any is active, and reset
the body length to 0). -/
def processByte (cfg : Config) (ms now : Nat) (s : SensorState) (b : Nat) :
    SensorState :=
  let data := b % 256
  let rx1 := appendBody s.rx data
  let w := shiftWindow s.rx.arr_last data
  let rx2 := { rx1 with arr_last := w, timestamp := ms }
  if headerMatch w then
    { s with rx := { rx2 with
        arr_body := ((((rx2.arr_body.set 0 w.b0).set 1 w.b1).set 2 w.b2).set 3 w.b3),
        idx_body := 4 } }
  else if rx2.idx_body = 30 ∧ footerMatch w = true then
    let tgts := decodeTargets cfg rx2.arr_body
    let cnt := (tgts.filter Target.zone).length
    { rx := { rx2 with idx_body := 0 },
      targets := tgts,
      counter := cnt,
      timestamp := if cnt > 0 then now else s.timestamp }
  else { s with rx := rx2 }

/-- One iteration of the receive loop of `LD2450ReceiveData`: the byte is
read from the serial port, and is processed only when the system uptime
exceeds the 10-second startup delay. -/
def LD2450ReceiveByte (cfg : Config) (uptime ms now : Nat) (s : SensorState)
    (b : Nat) : SensorState :=
  if LD2450_START_DELAY < uptime then processByte cfg ms now s b else s

/-- The receive loop of `LD2450ReceiveData` over all available bytes. -/
def LD2450ReceiveData (cfg : Config) (uptime ms now : Nat) (s : SensorState)
    (bytes : List Nat) : SensorState :=
  bytes.foldl (LD2450ReceiveByte cfg uptime ms now) s

/-- Driver state after `LD2450Init`: zeroed targets, empty body, zeroed
window, no detection yet. -/
def initState : SensorState :=
  { rx := { timestamp := 4294967295, idx_body := 0,
            arr_body := List.replicate 32 0, arr_last := ⟨0, 0, 0, 0⟩ },
    targets := List.replicate 3 ⟨0, 0, 0, 0, false⟩,
    counter := 0,
    timestamp := 0 }

/-- Well-formedness of the driver state: the body buffer has its C size of
32 cells, the recorded length never exceeds 32, and the stored window
bytes are genuine `uint8_t` values. -/
def WF (s : SensorState) : Prop :=
  s.rx.arr_body.length = 32 ∧ s.rx.idx_body ≤ 32 ∧
  s.rx.arr_last.b0 < 256 ∧ s.rx.arr_last.b1 < 256 ∧
  s.rx.arr_last.b2 < 256 ∧ s.rx.arr_last.b3 < 256

instance (s : SensorState) : Decidable (WF s) := by
  unfold WF
  infer_instance

/-- The condition under which a received byte completes a frame and
triggers the target decoder. -/
def decodeFires (uptime : Nat) (s : SensorState) (b : Nat) : Prop :=
  LD2450_START_DELAY < uptime ∧
  headerMatch (shiftWindow s.rx.arr_last (b % 256)) = false ∧
  (appendBody s.rx (b % 256)).idx_body = 30 ∧
  footerMatch (shiftWindow s.rx.arr_last (b % 256)) = true

instance (uptime : Nat) (s : SensorState) (b : Nat) :
    Decidable (decodeFires uptime s b) := by
  unfold decodeFires
  infer_instance

/-- Specification-side reading of the 16-bit little-endian field at offset
`off` (0 for x, 2 for y, 4 for speed) of target slot `i`, interpreted as
a two's-complement signed value. -/
def rawField (body : List Nat) (i off : Nat) : Int :=
  let m := body.getD (4 + i * 8 + off) 0 + 256 * body.getD (4 + i * 8 + off + 1) 0
  if m < 32768 then (m : Int) else (m : Int) - 65536

/-- Specification-side recovery rule for the sign-magnitude encoding: a
negative raw value denotes `-(raw) - 32768`, a non-negative one is taken
unchanged. -/
def specFix (r : Int) : Int := if r < 0 then -r - 32768 else r

/-- Example frame: header, target slot 0 at `x = 0x0032`, `y = 0x801E`,
`speed = 0x0005`, empty slots 1 and 2, footer. -/
def exFrame : List Nat :=
  [0xAA, 0xFF, 0x03, 0x00,
   0x32, 0x00, 0x1E, 0x80, 0x05, 0x00, 0x00, 0x00,
   0, 0, 0, 0, 0, 0, 0, 0,
   0, 0, 0, 0, 0, 0, 0, 0,
   0x55, 0xCC]

/-- Example configuration whose zone corner (x1, y1) coincides with the
target decoded from `exFrame`. -/
def cfgC5 : Config := ⟨5, 50, 6000, 30, 6000⟩

/-- Example state in which the last three received bytes were
`AA FF 03` in the middle of unrelated accumulation. -/
def sC3 : SensorState :=
  { rx := { timestamp := 0, idx_body := 17, arr_body := List.replicate 32 1,
            arr_last := ⟨1, 170, 255, 3⟩ },
    targets := List.replicate 3 ⟨0, 0, 0, 0, false⟩,
    counter := 0, timestamp := 0 }

/-- Example state holding the first 29 bytes of a complete empty frame,
one byte (the final `CC`) away from decoding. -/
def sC4 : SensorState :=
  { rx := { timestamp := 0, idx_body := 29,
            arr_body := [0xAA, 0xFF, 0x03, 0x00] ++ List.replicate 24 0 ++
              [0x55, 0, 0, 0],
            arr_last := ⟨0, 0, 0, 0x55⟩ },
    targets := List.replicate 3 ⟨0, 0, 0, 0, false⟩,
    counter := 0, timestamp := 0 }

/-- Example state whose message buffer has been filled to its 32-byte
capacity without a frame boundary. -/
def sC8 : SensorState :=
  { rx := { timestamp := 0, idx_body := 32, arr_body := List.replicate 32 7,
            arr_last := ⟨7, 7, 7, 7⟩ },
    targets := List.replicate 3 ⟨0, 0, 0, 0, false⟩,
    counter := 0, timestamp := 0 }

/-- The fuel search returns `Nat.sqrt` as soon as the accumulator is below
the root and the fuel reaches past it. -/
theorem isqrtAux_eq_sqrt (n : Nat) :
    ∀ fuel k, k * k ≤ n → n < (k + fuel + 1) * (k + fuel + 1) →
      isqrtAux n fuel k = Nat.sqrt n := by
  intro fuel
  induction fuel with
  | zero =>
    intro k hk hub
    have h1 : k ≤ Nat.sqrt n := Nat.le_sqrt.mpr hk
    have h2 : Nat.sqrt n < k + 1 := Nat.sqrt_lt.mpr hub
    simp only [isqrtAux]
    omega
  | succ m ih =>
    intro k hk hub
    by_cases hstep : (k + 1) * (k + 1) ≤ n
    · simp only [isqrtAux]
      rw [if_pos hstep]
      refine ih (k + 1) hstep ?_
      have he : k + 1 + m + 1 = k + (m + 1) + 1 := by omega
      rw [he]
      exact hub
    · simp only [isqrtAux]
      rw [if_neg hstep]
      have h1 : k ≤ Nat.sqrt n := Nat.le_sqrt.mpr hk
      have h2 : Nat.sqrt n < k + 1 := Nat.sqrt_lt.mpr (by omega)
      omega

/-- The kernel-computable integer square root agrees with `Nat.sqrt`, so
the distance model is the usual integer square root of `x² + y²`. -/
theorem isqrt_eq_sqrt (n : Nat) : isqrt n = Nat.sqrt n := by
  refine isqrtAux_eq_sqrt n n 0 (by omega) ?_
  nlinarith

/-- The code-side sign correction and the specification-side recovery rule
agree on every value. -/
theorem fixSign_eq_specFix (v : Int) : fixSign v = specFix v := by
  unfold fixSign specFix
  split_ifs <;> ring

/-- On a genuine 16-bit value the `int16_t` reinterpretation is the plain
two's-complement reading. -/
theorem toInt16_eq_of_lt (m : Nat) (hm : m < 65536) :
    toInt16 m = if m < 32768 then (m : Int) else (m : Int) - 65536 := by
  unfold toInt16
  rw [Nat.mod_eq_of_lt hm]

/-- Bytes read out of a list of `uint8_t` values are below 256. -/
theorem getD_lt_256 (l : List Nat) (h : ∀ v ∈ l, v < 256) (k : Nat) :
    l.getD k 0 < 256 := by
  rcases Nat.lt_or_ge k l.length with hk | hk
  · rw [List.getD_eq_getElem l 0 hk]
    exact h _ (List.getElem_mem hk)
  · rw [List.getD_eq_default _ _ hk]
    omega

/-- Reading back the cell just written by `List.set`. -/
theorem getD_set_self (l : List Nat) (i a : Nat) (h : i < l.length) :
    (l.set i a).getD i 0 = a := by
  rw [List.getD_eq_getElem?_getD, List.getElem?_set]
  simp [h]

/-- Reading a cell other than the one written by `List.set`. -/
theorem getD_set_ne (l : List Nat) (i j a : Nat) (h : i ≠ j) :
    (l.set i a).getD j 0 = l.getD j 0 := by
  rw [List.getD_eq_getElem?_getD, List.getElem?_set, if_neg h,
    ← List.getD_eq_getElem?_getD]

/-- Appending preserves the physical buffer size. -/
theorem appendBody_length (rx : RxState) (d : Nat)
    (h : rx.arr_body.length = 32) : (appendBody rx d).arr_body.length = 32 := by
  unfold appendBody
  split <;> simp [h]

/-- Appending keeps the recorded length within capacity. -/
theorem appendBody_idx_le (rx : RxState) (d : Nat) (h : rx.idx_body ≤ 32) :
    (appendBody rx d).idx_body ≤ 32 := by
  unfold appendBody
  by_cases hlt : rx.idx_body < LD2450_MSG_SIZE_MAX
  · rw [if_pos hlt]
    show rx.idx_body + 1 ≤ 32
    unfold LD2450_MSG_SIZE_MAX at hlt
    omega
  · rw [if_neg hlt]
    exact h

/-- A byte arriving on a full buffer is dropped entirely. -/
theorem appendBody_full (rx : RxState) (d : Nat) (h : rx.idx_body = 32) :
    appendBody rx d = rx := by
  unfold appendBody LD2450_MSG_SIZE_MAX
  rw [if_neg (by omega)]

/-- Once 30 or more bytes have accumulated, the post-append length can
never be exactly 30 again. -/
theorem appendBody_idx_ne_30 (rx : RxState) (d : Nat) (h : 30 ≤ rx.idx_body) :
    (appendBody rx d).idx_body ≠ 30 := by
  unfold appendBody
  by_cases hlt : rx.idx_body < LD2450_MSG_SIZE_MAX
  · rw [if_pos hlt]
    show rx.idx_body + 1 ≠ 30
    unfold LD2450_MSG_SIZE_MAX at hlt
    omega
  · rw [if_neg hlt]
    unfold LD2450_MSG_SIZE_MAX at hlt
    omega

/-- Well-formedness is preserved by each received byte. -/
theorem WF_receiveByte (cfg : Config) (uptime ms now : Nat) (s : SensorState)
    (b : Nat) (h : WF s) : WF (LD2450ReceiveByte cfg uptime ms now s b) := by
  obtain ⟨hlen, hidx, h0, h1, h2, h3⟩ := h
  have hb : b % 256 < 256 := Nat.mod_lt _ (by omega)
  unfold LD2450ReceiveByte processByte appendBody shiftWindow
  dsimp only
  split_ifs <;>
    refine ⟨?_, ?_, ?_, ?_, ?_, ?_⟩ <;>
    first
      | omega
      | (simp_all [WF, LD2450_MSG_SIZE_MAX]; try omega)

/-- Well-formedness holds initially. -/
theorem WF_initState : WF initState := by decide

/-- C2 as stated is false: the persisted x1 byte 255 decodes to 12700 mm,
which the validation never clamps from above, and the degenerate-range
reset then sets x2 = 6000 < x1, leaving an inverted zone. -/
theorem C2_counterexample :
    ¬ ((LD2450LoadConfig ⟨5, 255, 128, 128, 188⟩).x1 <
         (LD2450LoadConfig ⟨5, 255, 128, 128, 188⟩).x2 ∧
       (LD2450LoadConfig ⟨5, 255, 128, 128, 188⟩).y1 <
         (LD2450LoadConfig ⟨5, 255, 128, 128, 188⟩).y2) := by decide

/-- C2 (amended): for persisted bytes whose x1 and y1 fields decode below
the 6000 mm maximum (byte value at most 187), LD2450LoadConfig always
produces x1 < x2 and y1 < y2; and whenever the decoded x2 is at most the
decoded x1 the loaded x2 is reset to 6000. -/
theorem C2_load_invariant (b25 b26 b27 b28 b29 : Nat)
    (h26 : b26 ≤ 187) (h28 : b28 ≤ 187) :
    (LD2450LoadConfig ⟨b25, b26, b27, b28, b29⟩).x1 <
      (LD2450LoadConfig ⟨b25, b26, b27, b28, b29⟩).x2 ∧
    (LD2450LoadConfig ⟨b25, b26, b27, b28, b29⟩).y1 <
      (LD2450LoadConfig ⟨b25, b26, b27, b28, b29⟩).y2 ∧
    (((b27 : Int) - 128) * 100 ≤ ((b26 : Int) - 128) * 100 →
      (LD2450LoadConfig ⟨b25, b26, b27, b28, b29⟩).x2 = 6000) := by
  unfold LD2450LoadConfig LD2450_DIST_MAX LD2450_DEFAULT_TIMEOUT
  dsimp only
  split_ifs <;> refine ⟨?_, ?_, ?_⟩ <;> intros <;> omega

/-- Witness for the amended C2 at a degenerate stored zone. -/
theorem C2_load_invariant_witness :
    (68 ≤ 187 ∧ 128 ≤ 187) ∧
    (LD2450LoadConfig ⟨5, 68, 60, 128, 100⟩).x1 <
      (LD2450LoadConfig ⟨5, 68, 60, 128, 100⟩).x2 ∧
    (LD2450LoadConfig ⟨5, 68, 60, 128, 100⟩).y1 <
      (LD2450LoadConfig ⟨5, 68, 60, 128, 100⟩).y2 ∧
    (LD2450LoadConfig ⟨5, 68, 60, 128, 100⟩).x2 = 6000 :=
  ⟨⟨by decide, by decide⟩,
   (C2_load_invariant 5 68 60 128 100 (by decide) (by decide)).1,
   (C2_load_invariant 5 68 60 128 100 (by decide) (by decide)).2.1,
   (C2_load_invariant 5 68 60 128 100 (by decide) (by decide)).2.2 (by decide)⟩

/-- C6 as stated is false: the sum `timestamp + timeout` is computed in
`uint32_t` arithmetic, so with timestamp 2^31 and requested timeout 2^31
the sum wraps to 0 and the query reports false although the claim's
mathematical condition `timestamp + timeout > now` holds. -/
theorem C6_counterexample :
    LD2450GetDetectionStatus defaultConfig 2147483648 1 2147483648 = false ∧
    (2147483648 : Nat) ≠ 0 ∧ (2147483648 : Nat) + 2147483648 > 1 := by decide

/-- C6 (amended): the presence query returns true exactly when the
last-detection timestamp is nonzero and `(timestamp + timeout) mod 2^32`
exceeds the current time, where a requested timeout of 0 or the
`UINT32_MAX` sentinel selects the configured default timeout. -/
theorem C6_detection_status (cfg : Config) (tstamp now delay : Nat) :
    LD2450GetDetectionStatus cfg tstamp now delay = true ↔
      (tstamp ≠ 0 ∧
        (tstamp + (if delay = 0 ∨ delay = 4294967295 then cfg.timeout else delay)) %
            4294967296 > now) := by
  unfold LD2450GetDetectionStatus
  dsimp only
  split_ifs with h1 h2 <;> simp_all

/-- C7 as stated is false: the timeout command saves but never reloads,
and payload 256 is stored in the `uint8_t` timeout as 0, while reloading
the just-saved bytes would turn the 0 byte into the default timeout 5. -/
theorem C7_counterexample :
    (CmndLD2450Timeout 256 defaultConfig (LD2450SaveConfig defaultConfig)).1 ≠
      LD2450LoadConfig
        (CmndLD2450Timeout 256 defaultConfig (LD2450SaveConfig defaultConfig)).2 := by
  decide

/-- C7 (amended): the zone and dist set operations persist the
configuration and immediately reload and re-validate it, so after either
command the in-memory configuration equals the result of loading the
just-saved bytes; the timeout and reset commands persist without
reloading. -/
theorem C7_save_then_reload :
    (∀ vals cfg, (CmndLD2450Zone vals cfg).1 =
        LD2450LoadConfig (CmndLD2450Zone vals cfg).2) ∧
    (∀ vals cfg, (CmndLD2450Dist vals cfg).1 =
        LD2450LoadConfig (CmndLD2450Dist vals cfg).2) :=
  ⟨fun _ _ => rfl, fun _ _ => rfl⟩

/-- C9: a received byte that does not complete a valid frame (the
footer-decode branch does not fire) leaves the three target records, the
active-target counter and the last-detection timestamp unchanged. -/
theorem C9_no_decode_no_update (cfg : Config) (uptime ms now : Nat)
    (s : SensorState) (b : Nat) (h : ¬ decodeFires uptime s b) :
    (LD2450ReceiveByte cfg uptime ms now s b).targets = s.targets ∧
    (LD2450ReceiveByte cfg uptime ms now s b).counter = s.counter ∧
    (LD2450ReceiveByte cfg uptime ms now s b).timestamp = s.timestamp := by
  by_cases hup : LD2450_START_DELAY < uptime
  · unfold LD2450ReceiveByte processByte
    rw [if_pos hup]
    dsimp only
    split_ifs with hh hf hcnt
    · exact ⟨rfl, rfl, rfl⟩
    · exact absurd ⟨hup, by simpa using hh, hf.1, hf.2⟩ h
    · exact absurd ⟨hup, by simpa using hh, hf.1, hf.2⟩ h
    · exact ⟨rfl, rfl, rfl⟩
  · unfold LD2450ReceiveByte
    rw [if_neg hup]
    exact ⟨rfl, rfl, rfl⟩

/-- Witness for C9 on a byte that matches nothing. -/
theorem C9_witness :
    (¬ decodeFires 11 initState 170) ∧
    (LD2450ReceiveByte defaultConfig 11 0 0 initState 170).targets =
      initState.targets := by
  have h := C9_no_decode_no_update defaultConfig 11 0 0 initState 170 (by decide)
  exact ⟨by decide, h.1⟩

/-- C10: a byte received while the uptime has not passed the 10-second
startup delay is read and completely ignored: the entire driver state
(window, message buffer and length, targets, counter, timestamps) is
unchanged, so no frame can be decoded during the first 10 seconds. -/
theorem C10_startup_delay (cfg : Config) (uptime ms now : Nat)
    (s : SensorState) (b : Nat) (h : uptime ≤ LD2450_START_DELAY) :
    LD2450ReceiveByte cfg uptime ms now s b = s := by
  unfold LD2450ReceiveByte
  rw [if_neg (by omega)]

/-- Witness for C10 at the boundary uptime of 10 seconds. -/
theorem C10_witness :
    (10 ≤ LD2450_START_DELAY) ∧
    LD2450ReceiveByte defaultConfig 10 0 0 initState 170 = initState :=
  ⟨by decide, C10_startup_delay defaultConfig 10 0 0 initState 170 (by decide)⟩

/-- C1: for every 30-byte frame of uint8 bytes and each of the 3 target
slots at offset 4 + i*8, the decoder reads x, y and speed as 16-bit
little-endian signed values and applies to each, independently: if the
raw value interpreted as signed is negative the decoded value is
-(raw) - 32768, otherwise raw unchanged; the y field is additionally
negated after this correction. -/
theorem C1_sign_correction (cfg : Config) (body : List Nat) (i : Fin 3)
    (hbytes : ∀ v ∈ body, v < 256) (_hlen : body.length = 30) :
    (decodeTarget cfg body i.val).x = specFix (rawField body i.val 0) ∧
    (decodeTarget cfg body i.val).y = -specFix (rawField body i.val 2) ∧
    (decodeTarget cfg body i.val).speed = specFix (rawField body i.val 4) := by
  have key : ∀ off : Nat,
      fixSign (toInt16 (body.getD (4 + i.val * 8 + off) 0 +
        256 * body.getD (4 + i.val * 8 + off + 1) 0)) =
        specFix (rawField body i.val off) := by
    intro off
    have h1 := getD_lt_256 body hbytes (4 + i.val * 8 + off)
    have h2 := getD_lt_256 body hbytes (4 + i.val * 8 + off + 1)
    rw [fixSign_eq_specFix]
    unfold rawField
    dsimp only
    rw [toInt16_eq_of_lt _ (by omega)]
  refine ⟨?_, ?_, ?_⟩
  · exact key 0
  · show 0 - fixSign (toInt16 (body.getD (4 + i.val * 8 + 2) 0 +
        256 * body.getD (4 + i.val * 8 + 2 + 1) 0)) =
      -specFix (rawField body i.val 2)
    rw [key 2]
    ring
  · exact key 4

/-- Witness for C1 on the example frame. -/
theorem C1_sign_correction_witness :
    ((∀ v ∈ exFrame, v < 256) ∧ exFrame.length = 30) ∧
    (decodeTarget defaultConfig exFrame 0).x = specFix (rawField exFrame 0 0) ∧
    (decodeTarget defaultConfig exFrame 0).y = -specFix (rawField exFrame 0 2) ∧
    (decodeTarget defaultConfig exFrame 0).speed =
      specFix (rawField exFrame 0 4) :=
  ⟨⟨by decide, by decide⟩,
   C1_sign_correction defaultConfig exFrame 0 (by decide) (by decide)⟩

/-- C3: after any processed byte whose arrival makes the 4-byte sliding
window equal the header magic AA FF 03 00, the message buffer holds
exactly those 4 header bytes and its recorded length is exactly 4,
regardless of what was accumulated before. -/
theorem C3_header_resync (cfg : Config) (uptime ms now : Nat) (s : SensorState)
    (b : Nat) (hwf : WF s) (hup : LD2450_START_DELAY < uptime)
    (hm : headerMatch (LD2450ReceiveByte cfg uptime ms now s b).rx.arr_last = true) :
    (LD2450ReceiveByte cfg uptime ms now s b).rx.idx_body = 4 ∧
    (LD2450ReceiveByte cfg uptime ms now s b).rx.arr_body.getD 0 0 = 0xAA ∧
    (LD2450ReceiveByte cfg uptime ms now s b).rx.arr_body.getD 1 0 = 0xFF ∧
    (LD2450ReceiveByte cfg uptime ms now s b).rx.arr_body.getD 2 0 = 0x03 ∧
    (LD2450ReceiveByte cfg uptime ms now s b).rx.arr_body.getD 3 0 = 0x00 := by
  obtain ⟨hlen, hidx, h0, h1, h2, h3⟩ := hwf
  have hb : b % 256 < 256 := Nat.mod_lt _ (by omega)
  have harr : (LD2450ReceiveByte cfg uptime ms now s b).rx.arr_last =
      shiftWindow s.rx.arr_last (b % 256) := by
    unfold LD2450ReceiveByte processByte
    rw [if_pos hup]
    dsimp only
    split_ifs <;> rfl
  rw [harr] at hm
  have hsum := of_decide_eq_true (by rw [headerMatch] at hm; exact hm :
    decide ((shiftWindow s.rx.arr_last (b % 256)).b0 +
      256 * (shiftWindow s.rx.arr_last (b % 256)).b1 +
      65536 * (shiftWindow s.rx.arr_last (b % 256)).b2 +
      16777216 * (shiftWindow s.rx.arr_last (b % 256)).b3 = 0x0003ffaa) = true)
  rw [shiftWindow] at hsum
  dsimp only at hsum
  have hv0 : s.rx.arr_last.b1 = 170 := by omega
  have hv1 : s.rx.arr_last.b2 = 255 := by omega
  have hv2 : s.rx.arr_last.b3 = 3 := by omega
  have hv3 : b % 256 = 0 := by omega
  have hlen1 : (appendBody s.rx (b % 256)).arr_body.length = 32 :=
    appendBody_length s.rx (b % 256) hlen
  unfold LD2450ReceiveByte processByte
  rw [if_pos hup]
  dsimp only
  rw [if_pos hm]
  dsimp only
  refine ⟨rfl, ?_, ?_, ?_, ?_⟩
  · rw [getD_set_ne _ 3 0 _ (by omega), getD_set_ne _ 2 0 _ (by omega),
      getD_set_ne _ 1 0 _ (by omega),
      getD_set_self _ 0 _ (by simp [hlen1])]
    simp [shiftWindow, hv0]
  · rw [getD_set_ne _ 3 1 _ (by omega), getD_set_ne _ 2 1 _ (by omega),
      getD_set_self _ 1 _ (by simp [hlen1])]
    simp [shiftWindow, hv1]
  · rw [getD_set_ne _ 3 2 _ (by omega),
      getD_set_self _ 2 _ (by simp [hlen1])]
    simp [shiftWindow, hv2]
  · rw [getD_set_self _ 3 _ (by simp [hlen1])]
    simp [shiftWindow, hv3]

/-- Witness for C3: a header completing in the middle of unrelated
accumulation resets the buffer to the 4 header bytes. -/
theorem C3_header_resync_witness :
    (WF sC3 ∧ LD2450_START_DELAY < 11) ∧
    (LD2450ReceiveByte defaultConfig 11 0 0 sC3 0).rx.idx_body = 4 ∧
    (LD2450ReceiveByte defaultConfig 11 0 0 sC3 0).rx.arr_body.getD 0 0 = 0xAA := by
  have h := C3_header_resync defaultConfig 11 0 0 sC3 0 (by decide) (by decide)
    (by decide)
  exact ⟨⟨by decide, by decide⟩, h.1, h.2.1⟩

/-- C4: when the new window does not match the header, a frame is handed
to the target decoder exactly when the post-append body length is 30 and
the last two window bytes are the footer magic 55 CC; decoding overwrites
the targets and counter from the body and resets the body length to 0,
and otherwise the targets and counter are untouched. -/
theorem C4_footer_decode (cfg : Config) (uptime ms now : Nat) (s : SensorState)
    (b : Nat) (hup : LD2450_START_DELAY < uptime)
    (hnh : headerMatch (shiftWindow s.rx.arr_last (b % 256)) = false) :
    (((appendBody s.rx (b % 256)).idx_body = 30 ∧
        footerMatch (shiftWindow s.rx.arr_last (b % 256)) = true) →
      (LD2450ReceiveByte cfg uptime ms now s b).targets =
          decodeTargets cfg (appendBody s.rx (b % 256)).arr_body ∧
      (LD2450ReceiveByte cfg uptime ms now s b).counter =
          ((decodeTargets cfg (appendBody s.rx (b % 256)).arr_body).filter
            Target.zone).length ∧
      (LD2450ReceiveByte cfg uptime ms now s b).rx.idx_body = 0) ∧
    (¬ ((appendBody s.rx (b % 256)).idx_body = 30 ∧
        footerMatch (shiftWindow s.rx.arr_last (b % 256)) = true) →
      (LD2450ReceiveByte cfg uptime ms now s b).targets = s.targets ∧
      (LD2450ReceiveByte cfg uptime ms now s b).counter = s.counter ∧
      (LD2450ReceiveByte cfg uptime ms now s b).rx.idx_body =
          (appendBody s.rx (b % 256)).idx_body) := by
  unfold LD2450ReceiveByte processByte
  rw [if_pos hup]
  dsimp only
  rw [if_neg (by simp [hnh])]
  split_ifs with hc hcnt
  · exact ⟨fun _ => ⟨rfl, rfl, rfl⟩, fun hn => absurd hc hn⟩
  · exact ⟨fun _ => ⟨rfl, rfl, rfl⟩, fun hn => absurd hc hn⟩
  · exact ⟨fun hcc => absurd hcc hc, fun _ => ⟨rfl, rfl, rfl⟩⟩

/-- Witness for C4: the final footer byte of a complete empty frame
triggers a decode that leaves zero active targets and an empty buffer. -/
theorem C4_footer_decode_witness :
    (LD2450_START_DELAY < 11 ∧
     headerMatch (shiftWindow sC4.rx.arr_last (204 % 256)) = false) ∧
    (LD2450ReceiveByte defaultConfig 11 0 0 sC4 204).counter = 0 ∧
    (LD2450ReceiveByte defaultConfig 11 0 0 sC4 204).rx.idx_body = 0 := by
  have h := (C4_footer_decode defaultConfig 11 0 0 sC4 204 (by decide)
    (by decide)).1 (by decide)
  exact ⟨⟨by decide, by decide⟩, h.2.1.trans (by decide), h.2.2⟩

/-- C5: after a frame is decoded, each target's zone flag holds exactly
when its distance is positive and its coordinates lie in the closed
rectangle of the current configuration; a target exactly on the corner
(x1, y1) or (x2, y2) with nonzero distance is in the zone, a target with
x = x1 - 1 is not, and the active-target counter equals the number of
targets whose zone flag is true. -/
theorem C5_zone_classifier (cfg : Config) (body : List Nat)
    (uptime ms now : Nat) (s : SensorState) (b : Nat) :
    (∀ i : Fin 3, ((decodeTarget cfg body i.val).zone = true ↔
       (0 < (decodeTarget cfg body i.val).dist ∧
        cfg.x1 ≤ (decodeTarget cfg body i.val).x ∧
        (decodeTarget cfg body i.val).x ≤ cfg.x2 ∧
        cfg.y1 ≤ (decodeTarget cfg body i.val).y ∧
        (decodeTarget cfg body i.val).y ≤ cfg.y2))) ∧
    (∀ i : Fin 3, cfg.x1 ≤ cfg.x2 → cfg.y1 ≤ cfg.y2 →
      (((decodeTarget cfg body i.val).x = cfg.x1 ∧
         (decodeTarget cfg body i.val).y = cfg.y1) ∨
        ((decodeTarget cfg body i.val).x = cfg.x2 ∧
         (decodeTarget cfg body i.val).y = cfg.y2)) →
      0 < (decodeTarget cfg body i.val).dist →
      (decodeTarget cfg body i.val).zone = true) ∧
    (∀ i : Fin 3, (decodeTarget cfg body i.val).x = cfg.x1 - 1 →
      (decodeTarget cfg body i.val).zone = false) ∧
    (decodeFires uptime s b →
      (LD2450ReceiveByte cfg uptime ms now s b).counter =
        ((LD2450ReceiveByte cfg uptime ms now s b).targets.filter
          Target.zone).length) := by
  have hiff : ∀ i : Nat, ((decodeTarget cfg body i).zone = true ↔
      (0 < (decodeTarget cfg body i).dist ∧
       cfg.x1 ≤ (decodeTarget cfg body i).x ∧
       (decodeTarget cfg body i).x ≤ cfg.x2 ∧
       cfg.y1 ≤ (decodeTarget cfg body i).y ∧
       (decodeTarget cfg body i).y ≤ cfg.y2)) := by
    intro i
    unfold decodeTarget
    dsimp only
    simp [Bool.and_eq_true, decide_eq_true_iff, and_assoc]
  refine ⟨fun i => hiff i.val, ?_, ?_, ?_⟩
  · intro i hx hy hc hd
    refine (hiff i.val).mpr ⟨hd, ?_, ?_, ?_, ?_⟩ <;>
      rcases hc with ⟨hcx, hcy⟩ | ⟨hcx, hcy⟩ <;> omega
  · intro i hx
    cases hz : (decodeTarget cfg body i.val).zone
    · rfl
    · have hcontra := (hiff i.val).mp hz
      omega
  · intro hfires
    unfold decodeFires at hfires
    obtain ⟨hup, hh, hi, hf⟩ := hfires
    unfold LD2450ReceiveByte processByte
    rw [if_pos hup]
    dsimp only
    rw [if_neg (by simp [hh]), if_pos ⟨hi, hf⟩]

/-- Witness for C5: a target decoded exactly at the configured corner
(x1, y1) with nonzero distance is classified inside the zone. -/
theorem C5_zone_classifier_witness :
    (cfgC5.x1 ≤ cfgC5.x2 ∧ cfgC5.y1 ≤ cfgC5.y2 ∧
     (decodeTarget cfgC5 exFrame 0).x = cfgC5.x1 ∧
     (decodeTarget cfgC5 exFrame 0).y = cfgC5.y1 ∧
     0 < (decodeTarget cfgC5 exFrame 0).dist) ∧
    (decodeTarget cfgC5 exFrame 0).zone = true := by
  refine ⟨⟨by decide, by decide, by decide, by decide, by decide⟩, ?_⟩
  exact (C5_zone_classifier cfgC5 exFrame 0 0 0 initState 0).2.1 0 (by decide)
    (by decide) (Or.inl ⟨by decide, by decide⟩) (by decide)

/-- C8: a received byte never grows the message buffer beyond its 32-byte
capacity (the physical buffer keeps its size and the recorded length
stays at most 32); a byte arriving on a full buffer with no header in the
window is dropped without touching the buffer; and an accumulation that
has already reached 30 bytes can never fire the footer decode again, so
the targets, counter and detection timestamp stay untouched. -/
theorem C8_buffer_safety (cfg : Config) (uptime ms now : Nat) (s : SensorState)
    (b : Nat) (hlen : s.rx.arr_body.length = 32) (hidx : s.rx.idx_body ≤ 32) :
    (LD2450ReceiveByte cfg uptime ms now s b).rx.arr_body.length = 32 ∧
    (LD2450ReceiveByte cfg uptime ms now s b).rx.idx_body ≤ 32 ∧
    (s.rx.idx_body = 32 →
      headerMatch (shiftWindow s.rx.arr_last (b % 256)) = false →
      (LD2450ReceiveByte cfg uptime ms now s b).rx.arr_body = s.rx.arr_body) ∧
    (30 ≤ s.rx.idx_body →
      (LD2450ReceiveByte cfg uptime ms now s b).targets = s.targets ∧
      (LD2450ReceiveByte cfg uptime ms now s b).counter = s.counter ∧
      (LD2450ReceiveByte cfg uptime ms now s b).timestamp = s.timestamp) := by
  by_cases hup : LD2450_START_DELAY < uptime
  · unfold LD2450ReceiveByte processByte
    rw [if_pos hup]
    dsimp only
    split_ifs with hh hf hcnt
    · refine ⟨?_, ?_, ?_, fun _ => ⟨rfl, rfl, rfl⟩⟩
      · simp [appendBody_length s.rx (b % 256) hlen]
      · show (4 : Nat) ≤ 32
        omega
      · intro h32 hnh
        exact absurd hh (by simp [hnh])
    · refine ⟨appendBody_length s.rx (b % 256) hlen, ?_, ?_, ?_⟩
      · show (0 : Nat) ≤ 32
        omega
      · intro h32 hnh
        exfalso
        rw [appendBody_full s.rx (b % 256) h32] at hf
        omega
      · intro h30
        exact absurd hf.1 (appendBody_idx_ne_30 s.rx (b % 256) h30)
    · refine ⟨appendBody_length s.rx (b % 256) hlen, ?_, ?_, ?_⟩
      · show (0 : Nat) ≤ 32
        omega
      · intro h32 hnh
        exfalso
        rw [appendBody_full s.rx (b % 256) h32] at hf
        omega
      · intro h30
        exact absurd hf.1 (appendBody_idx_ne_30 s.rx (b % 256) h30)
    · refine ⟨appendBody_length s.rx (b % 256) hlen,
        appendBody_idx_le s.rx (b % 256) hidx, ?_, fun _ => ⟨rfl, rfl, rfl⟩⟩
      intro h32 hnh
      show (appendBody s.rx (b % 256)).arr_body = s.rx.arr_body
      rw [appendBody_full s.rx (b % 256) h32]
  · unfold LD2450ReceiveByte
    rw [if_neg hup]
    exact ⟨hlen, hidx, fun _ _ => rfl, fun _ => ⟨rfl, rfl, rfl⟩⟩

/-- Witness for C8 on a saturated buffer. -/
theorem C8_buffer_safety_witness :
    (sC8.rx.arr_body.length = 32 ∧ sC8.rx.idx_body ≤ 32) ∧
    (LD2450ReceiveByte defaultConfig 11 0 0 sC8 7).rx.arr_body =
      sC8.rx.arr_body ∧
    (LD2450ReceiveByte defaultConfig 11 0 0 sC8 7).rx.idx_body ≤ 32 ∧
    (LD2450ReceiveByte defaultConfig 11 0 0 sC8 7).targets = sC8.targets := by
  have h := C8_buffer_safety defaultConfig 11 0 0 sC8 7 (by decide) (by decide)
  exact ⟨⟨by decide, by decide⟩, h.2.2.1 (by decide) (by decide), h.2.1,
    (h.2.2.2 (by decide)).1⟩

/-- Well-formedness is preserved by the receive loop. -/
theorem WF_receiveData (cfg : Config) (uptime ms now : Nat) (s : SensorState)
    (bytes : List Nat) (h : WF s) :
    WF (LD2450ReceiveData cfg uptime ms now s bytes) := by
  induction bytes generalizing s with
  | nil => exact h
  | cons c cs ih => exact ih _ (WF_receiveByte cfg uptime ms now s c h)

end LD2450
